import Mathlib

/-!
Verification of the containerd-wasm shim core: a shallow embedding of
`crates/containerd-shim-wasm/src/sys/unix/container/instance.rs` (the
`Instance` lifecycle: `new`, `start`, `kill`, `delete`, `wait_timeout`)
and of the `main` entry point generated by
`crates/containerd-shim-wasm-macros/src/lib.rs` (role dispatch, version
flag, and the `WasiTermination` completion protocol).

External collaborators (libcontainer, containerd client, the OS) are
represented by explicit oracle parameters describing their outcomes;
stateful code is modelled by explicit state passing and event traces.
-/

namespace ContainerdWasm

/-- Modelled from the spec: `WaitableCell` (`crate::sandbox::sync`), whose
source is not part of this excerpt.  Per spec section 4.1 it is a one-shot
cell: `set` is first-writer-wins (subsequent writers are no-ops), a scoped
guard writes a caller-supplied default on release if still empty, and
`wait_timeout` yields the published value.  We model the quiescent state of
the cell; `set` and `releaseGuard` additionally report whether they wrote. -/
structure WaitableCell (α : Type) where
  val : Option α
deriving DecidableEq, Repr

/-- `WaitableCell::new()`: the empty cell. -/
def WaitableCell.new {α : Type} : WaitableCell α := ⟨none⟩

/-- `WaitableCell::set(value)`: first writer wins; returns whether this call
wrote the value. -/
def WaitableCell.set {α : Type} (c : WaitableCell α) (v : α) :
    WaitableCell α × Bool :=
  match c.val with
  | some _ => (c, false)
  | none => (⟨some v⟩, true)

/-- Release of the guard obtained by `set_guard_with(default)`: if the cell
is still empty, the default is written; returns whether the fallback was
written. -/
def WaitableCell.releaseGuard {α : Type} (c : WaitableCell α) (d : α) :
    WaitableCell α × Bool :=
  c.set d

/-- `WaitableCell::wait_timeout(None)` on a quiescent cell: yields the
published value once one exists (`none` here means the caller would block
forever, which with `timeout = None` never returns). -/
def WaitableCell.wait_timeout {α : Type} (c : WaitableCell α) : Option α :=
  c.val

/-- Rust `as u32` on an `i32` value: wrapping conversion modulo `2^32`. -/
def toU32 (i : Int) : Nat := (i % (2 ^ 32 : Int)).toNat

/-- Rust `as i32` on a `u32` value: wrapping conversion into `[-2^31, 2^31)`. -/
def toI32 (n : Nat) : Int :=
  if n % 4294967296 < 2147483648 then ((n % 4294967296 : Nat) : Int)
  else ((n % 4294967296 : Nat) : Int) - 4294967296

/-- The exit record published to the exit cell: `(u32 exit code, timestamp)`.
`chrono::DateTime<Utc>` is abstracted to a `Nat` timestamp. -/
abbrev ExitRecord := Nat × Nat

/-- `nix::sys::wait::WaitStatus`, the outcome of waiting on the pidfd. -/
inductive WaitStatus
  | exited (pid : Int) (status : Int)
  | signaled (pid : Int) (sig : Int) (coreDumped : Bool)
  | stopped (pid : Int) (sig : Int)
  | ptraceEvent (pid : Int) (sig : Int) (ev : Int)
  | ptraceSyscall (pid : Int)
  | continued (pid : Int)
  | stillAlive
deriving DecidableEq, Repr

/-- The `match pidfd.wait().block_on()` arms in `Instance::start`
(instance.rs lines 119-130), before the `as u32` cast:
`Exited` yields its status, `Signaled` yields `128 + sig`, any other
success is logged and yields `137`, and a wait error yields `137`. -/
def watcherStatusCode (r : Except String WaitStatus) : Int :=
  match r with
  | .ok (.exited _ status) => status
  | .ok (.signaled _ sig _) => 128 + sig
  | .ok _ => 137
  | .error _ => 137

/-- The `u32` exit code the watcher publishes: the matched status cast
`as u32`. -/
def publishCode (r : Except String WaitStatus) : Nat :=
  toU32 (watcherStatusCode r)

/-- Events performed by `Instance::start`, in program order. -/
inductive StartEv
  | acquireGuard
  | lockContainer
  | readPid
  | bindPidFd
  | osStartCall
  | spawnWatcher
  | releaseGuardFallback
deriving DecidableEq, Repr

/-- Where `Instance::start` can fail (or panic) after the guard is taken:
`container.pid()`, `PidFd::new(pid)`, or `container.start()`. -/
inductive FailPoint
  | pidErr (e : String)
  | pidPanic
  | pidfdErr (e : String)
  | pidfdPanic
  | osStartErr (e : String)
  | osStartPanic
deriving DecidableEq, Repr

/-- Outcome oracle for one execution of `Instance::start`. -/
inductive StartOutcome
  | failAt (f : FailPoint)
  | spawned
deriving DecidableEq, Repr

/-- The `Error` type of `crate::sandbox` as used here. -/
inductive SandboxError
  | invalidArgument (msg : String)
  | others (msg : String)
  | any (msg : String)
deriving DecidableEq, Repr

/-- How one execution of `Instance::start` terminates. -/
inductive StartResult
  | okRes (pid : Nat)
  | errRes (e : SandboxError)
  | panicked
deriving DecidableEq, Repr

/-- The fallback record of the guard taken by `start`:
`(137, Utc::now())` with the guard-acquisition timestamp. -/
def fallbackRecord (tGuard : Nat) : ExitRecord := (137, tGuard)

/-- The observable result of one execution of `Instance::start`: the exit
cell afterwards, the event trace, how many cell writes `start` itself
performed, and the returned value. -/
structure StartRun where
  cell : WaitableCell ExitRecord
  events : List StartEv
  published : Nat
  result : StartResult
deriving DecidableEq, Repr

/-- `Instance::start` (instance.rs lines 101-135).  The guard with fallback
`(137, Utc::now())` is acquired first; then the container mutex is locked,
the pid is read, a pidfd is bound, and `container.start()` is issued.  On
any error return or panic after the guard is acquired, Rust drop semantics
release the guard, which writes the fallback if the cell is still empty.
On success the guard is moved into the spawned watcher thread (modelled
separately by `watcherThread`) and `start` returns `pid as u32`. -/
def instanceStart (o : StartOutcome) (tGuard : Nat) (pid : Int)
    (c : WaitableCell ExitRecord) : StartRun :=
  let fb := fallbackRecord tGuard
  match o with
  | .failAt (.pidErr e) =>
      let (c2, wrote) := c.releaseGuard fb
      ⟨c2, [.acquireGuard, .lockContainer, .readPid, .releaseGuardFallback],
        if wrote then 1 else 0, .errRes (.any ("failed to get pid: " ++ e))⟩
  | .failAt .pidPanic =>
      let (c2, wrote) := c.releaseGuard fb
      ⟨c2, [.acquireGuard, .lockContainer, .readPid, .releaseGuardFallback],
        if wrote then 1 else 0, .panicked⟩
  | .failAt (.pidfdErr e) =>
      let (c2, wrote) := c.releaseGuard fb
      ⟨c2, [.acquireGuard, .lockContainer, .readPid, .bindPidFd,
        .releaseGuardFallback], if wrote then 1 else 0, .errRes (.any e)⟩
  | .failAt .pidfdPanic =>
      let (c2, wrote) := c.releaseGuard fb
      ⟨c2, [.acquireGuard, .lockContainer, .readPid, .bindPidFd,
        .releaseGuardFallback], if wrote then 1 else 0, .panicked⟩
  | .failAt (.osStartErr e) =>
      let (c2, wrote) := c.releaseGuard fb
      ⟨c2, [.acquireGuard, .lockContainer, .readPid, .bindPidFd, .osStartCall,
        .releaseGuardFallback], if wrote then 1 else 0, .errRes (.any e)⟩
  | .failAt .osStartPanic =>
      let (c2, wrote) := c.releaseGuard fb
      ⟨c2, [.acquireGuard, .lockContainer, .readPid, .bindPidFd, .osStartCall,
        .releaseGuardFallback], if wrote then 1 else 0, .panicked⟩
  | .spawned =>
      ⟨c, [.acquireGuard, .lockContainer, .readPid, .bindPidFd, .osStartCall,
        .spawnWatcher], 0, .okRes (toU32 pid)⟩

/-- The body of the watcher thread spawned by `Instance::start`
(instance.rs lines 115-132): the guard is moved into the thread, the pidfd
wait outcome is mapped to a status, `(status as u32, Utc::now())` is set on
the exit cell (the `Result` of `set` is discarded), and only then does the
guard drop (a no-op once the cell is set).  Returns the cell and the number
of writes performed. -/
def watcherThread (guardDefault : ExitRecord) (w : Except String WaitStatus)
    (tw : Nat) (c : WaitableCell ExitRecord) : WaitableCell ExitRecord × Nat :=
  let (c1, wrote1) := c.set (publishCode w, tw)
  let (c2, wrote2) := c1.releaseGuard guardDefault
  (c2, (if wrote1 then 1 else 0) + (if wrote2 then 1 else 0))

/-- The watcher thread panicking before reaching its `set`: unwinding drops
the moved guard, which writes the fallback if the cell is still empty. -/
def watcherThreadPanics (guardDefault : ExitRecord)
    (c : WaitableCell ExitRecord) : WaitableCell ExitRecord × Nat :=
  let (c2, wrote) := c.releaseGuard guardDefault
  (c2, if wrote then 1 else 0)

/-- One whole-instance scenario: either `start` fails or panics at some
point, or the watcher thread runs to completion with some wait outcome, or
the watcher thread panics before publishing. -/
inductive Scenario
  | startFails (f : FailPoint)
  | watcherCompletes (w : Except String WaitStatus) (tw : Nat)
  | watcherPanics
deriving Repr

/-- A full execution of an instance from a fresh (empty) exit cell through
one of the scenarios: yields the final cell and the total number of
successful publishes to it. -/
def execute (sc : Scenario) (tGuard : Nat) (pid : Int) :
    WaitableCell ExitRecord × Nat :=
  match sc with
  | .startFails f =>
      let r := instanceStart (.failAt f) tGuard pid WaitableCell.new
      (r.cell, r.published)
  | .watcherCompletes w tw =>
      let r := instanceStart .spawned tGuard pid WaitableCell.new
      let (c2, n) := watcherThread (fallbackRecord tGuard) w tw r.cell
      (c2, r.published + n)
  | .watcherPanics =>
      let r := instanceStart .spawned tGuard pid WaitableCell.new
      let (c2, n) := watcherThreadPanics (fallbackRecord tGuard) r.cell
      (c2, r.published + n)

/-- Modelled from the spec: `libcontainer::signal::Signal::try_from` is an
external collaborator ("translates the numeric signal to a validated signal
value (fails with `InvalidArgument` on an unrecognized number)"; signal
number 0 has no corresponding OS signal).  The code converts the `u32`
argument with `as i32` first; on Linux the validated standard signals are
the numbers 1 through 31. -/
def signalTryFrom (n : Nat) : Option Int :=
  let v := toI32 n
  if 1 ≤ v ∧ v ≤ 31 then some v else none

/-- Operations `Instance::kill` performs on the sandbox handle. -/
inductive KillEv
  | lockContainer
  | sendKill (sig : Int) (allProcesses : Bool)
deriving DecidableEq, Repr

/-- `Instance::kill(signal)` (instance.rs lines 139-151): the numeric signal
is validated first; on failure an `InvalidArgument` error is returned before
the container mutex is ever locked.  On success the container is locked and
`container.kill(signal, true)` forwards the signal with the all-processes
flag; its error, if any, is propagated.  `killRes` is the oracle for the
sandbox call's outcome. -/
def instanceKill (killRes : Except String Unit) (signal : Nat) :
    Except SandboxError Unit × List KillEv :=
  match signalTryFrom signal with
  | none => (.error (.invalidArgument ("invalid signal number: " ++
      toString signal)), [])
  | some s =>
      match killRes with
      | .ok _ => (.ok (), [.lockContainer, .sendKill s true])
      | .error e => (.error (.any e), [.lockContainer, .sendKill s true])

/-- The default `oci_spec::image::Platform`, abstracted to a tag. -/
def defaultPlatform : String := "DEFAULT_PLATFORM"

/-- The state held by a constructed `Instance` (instance.rs lines 30-35,
89-94): its id, the container parts built in the zygote, and a fresh exit
cell. -/
structure InstanceModel where
  id : String
  root : String
  state : String
  exitCell : WaitableCell ExitRecord
deriving DecidableEq, Repr

/-- `Instance::new` (instance.rs lines 41-95).  `connectRes` is the outcome
of `containerd::Client::connect(..)`, whose error propagates via `?`;
`loadRes` is the outcome of `load_modules`, whose error is degraded by
`unwrap_or_else` to a warning plus `(vec![], Platform::default())`;
`zygoteRun` is the privileged construction closure run in the zygote over
the resolved `(modules, platform)`, whose error is mapped to
`SandboxError::Others`.  Returns the construction result and the warnings
logged. -/
def instanceNew (id : String) (connectRes : Except String Unit)
    (loadRes : Except String (List String × String))
    (zygoteRun : List String × String → Except String (String × String)) :
    Except SandboxError InstanceModel × List String :=
  match connectRes with
  | .error e => (.error (.any e), [])
  | .ok _ =>
      let resolved : (List String × String) × List String :=
        match loadRes with
        | .ok mp => (mp, [])
        | .error e =>
            (([], defaultPlatform),
              ["Error obtaining wasm layers for container " ++ id ++
               ".  Will attempt to use files inside container image. Error: "
               ++ e])
      match zygoteRun resolved.1 with
      | .error e => (.error (.others e), resolved.2)
      | .ok rs =>
          (.ok ⟨id, rs.1, rs.2, WaitableCell.new⟩, resolved.2)

/-- The value space of the `WasiTermination` completion protocol
(macros lib.rs lines 64-102): the handler returns `()`, an `i32`, the
uninhabited `Infallible`, a nested `Result` (`Err` converted to an error
message), or a future (`deferred`) whose driven output is again such a
value. -/
inductive CompletionValue
  | unit
  | code (i : Int)
  | never (e : Empty)
  | nested (r : Except String CompletionValue)
  | deferred (v : CompletionValue)

/-- `__containerd_wasm_shim_macro_exit_shim_process` resolution: `()` exits
0; an `i32` exits with itself; `Infallible` is `match self {}` (no runtime
branch); `Ok` recurses and `Err` logs the error then exits 137; a future is
first driven to completion by `block_on` and then resolved.  Returns the
logged messages and the exit code. -/
def resolveTermination : CompletionValue → List String × Int
  | .unit => ([], 0)
  | .code i => ([], i)
  | .never e => e.elim
  | .nested (.ok v) => resolveTermination v
  | .nested (.error e) => (["error: " ++ e], 137)
  | .deferred v => resolveTermination v

/-- Rust `str::to_lowercase()` as applied to the macro's engine-name
literal (an ASCII identifier): per-character ASCII lowercasing. -/
def lowerString (s : String) : String := ⟨s.data.map Char.toLower⟩

/-- The flags value produced by `containerd_shim_wasm::shim::parse`; only
its `version` field is read by the generated `main`. -/
structure Flags where
  version : Bool
deriving DecidableEq, Repr

/-- Observable actions of the generated `main` (macros lib.rs lines
105-149), in program order. -/
inductive MainEv
  | outLine (s : String)
  | errLine (s : String)
  | exitEv (code : Int)
  | runCli (id : String)
  | runClient (id : String)
  | logInfo (s : String)
  | bindSocket (path : String)
  | serverStart
  | panicEv (msg : String)
  | blockForever
deriving DecidableEq, Repr

/-- The generated `main` (macros lib.rs lines 105-149).  `name` is the
literal passed to the macro; `argv0` is the file stem of the invoking
program path.  If `flags.version` is set, four lines plus a blank line are
printed and the process exits 0, before any role resolution.  Otherwise the
stem is matched against `containerd-shim-<lower>-v1`,
`containerd-shim-<lower>d-v1` and `containerd-<lower>d` (with `<lower>` the
lower-cased name); the daemon branch binds the fixed socket path (oracle
`bindOk`; failure panics via `expect`), starts the server (oracle
`serverOk`), then blocks forever on a channel.  Any other stem prints a
usage error naming the three identities and exits 137. -/
def shimMain (name pkgVersion gitHash : String) (flags : Flags)
    (argv0 : String) (bindOk serverOk : Bool) : List MainEv :=
  let lowerName := lowerString name
  if flags.version then
    [.outLine (argv0 ++ ":"),
     .outLine ("  Runtime: " ++ name),
     .outLine ("  Version: " ++ pkgVersion),
     .outLine ("  Revision: " ++ gitHash),
     .outLine "",
     .exitEv 0]
  else
    let shimCli := "containerd-shim-" ++ lowerName ++ "-v1"
    let shimClient := "containerd-shim-" ++ lowerName ++ "d-v1"
    let shimDaemon := "containerd-" ++ lowerName ++ "d"
    if argv0 == shimCli then
      [.runCli ("io.containerd." ++ lowerName ++ ".v1")]
    else if argv0 == shimClient then
      [.runClient shimClient]
    else if argv0 == shimDaemon then
      [.logInfo "starting up!",
       .bindSocket "unix:///run/io.containerd.wasmwasi.v1/manager.sock"] ++
      (if bindOk then
        [.serverStart] ++
        (if serverOk then [.logInfo "server started!", .blockForever]
         else [.panicEv "failed to start daemon"])
       else [.panicEv "failed to bind to socket"])
    else
      [.errLine ("error: unrecognized binary name, expected one of " ++
         shimCli ++ ", " ++ shimClient ++ ", or " ++ shimDaemon ++ "."),
       .exitEv 137]

/-- Whether `needle` occurs as a contiguous substring of `hay`. -/
def hasSubstr (needle hay : List Char) : Bool :=
  (List.range (hay.length + 1)).any fun i => needle.isPrefixOf (hay.drop i)

lemma toU32_lt (i : Int) : toU32 i < 2 ^ 32 := by
  unfold toU32
  omega

lemma toU32_of_nonneg {i : Int} (h0 : 0 ≤ i) (h : i < 2 ^ 32) :
    toU32 i = i.toNat := by
  unfold toU32
  omega

/-- C1: In `Instance::start`, the exit-cell guard with fallback
`(137, now)` is acquired before any operation on the sandbox process (the
acquisition is the first event of every trace), and every execution that
returns an error or panics after the guard is acquired leaves the exit cell
holding the fallback record (when it was empty), so a subsequent
`wait_timeout(None)` yields a result rather than blocking forever. -/
theorem start_guard_first_fallback_published :
    ∀ (o : StartOutcome) (t : Nat) (pid : Int) (c : WaitableCell ExitRecord),
      ((instanceStart o t pid c).events.head? = some StartEv.acquireGuard)
    ∧ ((∀ p, (instanceStart o t pid c).result ≠ StartResult.okRes p) →
        (c.val = none →
          (instanceStart o t pid c).cell.val = some (fallbackRecord t))
        ∧ ∃ r, (instanceStart o t pid c).cell.wait_timeout = some r) := by
  intro o t pid c
  cases o with
  | failAt f =>
      cases f <;>
        (refine ⟨rfl, fun _ => ⟨fun hc => ?_, ?_⟩⟩ <;>
          · rcases hc2 : c.val with _ | v <;>
              simp_all [instanceStart, WaitableCell.releaseGuard,
                WaitableCell.set, WaitableCell.wait_timeout])
  | spawned =>
      refine ⟨rfl, fun h => absurd rfl (h (toU32 pid))⟩

/-- C1 witness: a concrete failing execution (the OS start call errors)
from an empty cell ends with the fallback record `(137, 7)` published. -/
theorem start_guard_first_fallback_published_witness :
    ((instanceStart (.failAt (.osStartErr "boom")) 7 42
        WaitableCell.new).cell.val = some (fallbackRecord 7))
  ∧ ∃ r, (instanceStart (.failAt (.osStartErr "boom")) 7 42
        WaitableCell.new).cell.wait_timeout = some r := by
  have h := (start_guard_first_fallback_published
    (.failAt (.osStartErr "boom")) 7 42 WaitableCell.new).2
    (by intro p h; simp [instanceStart, WaitableCell.releaseGuard,
      WaitableCell.set, WaitableCell.new] at h)
  exact ⟨h.1 rfl, h.2⟩

/-- C2: For every instance scenario (start failing or panicking at any
point, the watcher completing with any wait outcome, or the watcher thread
panicking), exactly one exit-status value is published to the exit cell,
and every reader of `wait_timeout` receives that single value. -/
theorem exit_status_published_exactly_once :
    ∀ (sc : Scenario) (t : Nat) (pid : Int),
      (execute sc t pid).2 = 1
    ∧ ∃ v, (execute sc t pid).1.wait_timeout = some v := by
  intro sc t pid
  cases sc with
  | startFails f =>
      cases f <;>
        simp [execute, instanceStart, WaitableCell.new,
          WaitableCell.releaseGuard, WaitableCell.set,
          WaitableCell.wait_timeout]
  | watcherCompletes w tw =>
      simp [execute, instanceStart, watcherThread, WaitableCell.new,
        WaitableCell.releaseGuard, WaitableCell.set,
        WaitableCell.wait_timeout]
  | watcherPanics =>
      simp [execute, instanceStart, watcherThreadPanics, WaitableCell.new,
        WaitableCell.releaseGuard, WaitableCell.set,
        WaitableCell.wait_timeout]

/-- C3: The watcher maps the pidfd wait outcome to the published `u32`
exit code totally: a normal exit with status `s` (a status byte, hence in
`i32` range) publishes `s`; termination by signal `sig` publishes
`128 + sig`; every other wait outcome and a wait error publish the
sentinel 137; and every possible outcome maps to some code below `2^32`. -/
theorem watcher_exit_code_mapping :
    (∀ pid s : Int, 0 ≤ s → s < 2 ^ 31 →
      publishCode (.ok (.exited pid s)) = s.toNat)
  ∧ (∀ (pid sig : Int) (core : Bool), 1 ≤ sig → sig ≤ 64 →
      publishCode (.ok (.signaled pid sig core)) = 128 + sig.toNat)
  ∧ (∀ pid sig, publishCode (.ok (.stopped pid sig)) = 137)
  ∧ (∀ pid sig ev, publishCode (.ok (.ptraceEvent pid sig ev)) = 137)
  ∧ (∀ pid, publishCode (.ok (.ptraceSyscall pid)) = 137)
  ∧ (∀ pid, publishCode (.ok (.continued pid)) = 137)
  ∧ publishCode (.ok .stillAlive) = 137
  ∧ (∀ e, publishCode (.error e) = 137)
  ∧ (∀ r, publishCode r < 2 ^ 32) := by
  refine ⟨?_, ?_, ?_, ?_, ?_, ?_, ?_, ?_, fun r => toU32_lt _⟩
  · intro pid s h0 h
    simp only [publishCode, watcherStatusCode]
    unfold toU32
    omega
  · intro pid sig core h1 h64
    simp only [publishCode, watcherStatusCode]
    unfold toU32
    omega
  all_goals (intros; rfl)

/-- C3 witness: concrete outcomes — exit status 42 publishes 42, signal 9
publishes 137 (= 128 + 9). -/
theorem watcher_exit_code_mapping_witness :
    publishCode (.ok (.exited 1 42)) = (42 : Int).toNat
  ∧ publishCode (.ok (.signaled 1 9 false)) = 128 + (9 : Int).toNat := by
  exact ⟨watcher_exit_code_mapping.1 1 42 (by norm_num) (by norm_num),
    watcher_exit_code_mapping.2.1 1 9 false (by norm_num) (by norm_num)⟩

/-- C4: `WasiTermination` resolution is total and maps: unit to exit code
0; any `i32` to itself; the never-type to a statically unreachable case
(every completion value is one of the other four shapes, so no runtime
branch is needed); a nested `Result` to recursion on `Ok` and, on `Err`,
logging the error and exiting with sentinel 137; and a deferred value to
resolution of its driven output. -/
theorem completion_protocol_resolution :
    resolveTermination .unit = ([], 0)
  ∧ (∀ i : Int, -(2 ^ 31) ≤ i → i < 2 ^ 31 →
      resolveTermination (.code i) = ([], i))
  ∧ (∀ v : CompletionValue, v = .unit ∨ (∃ i, v = .code i) ∨
      (∃ r, v = .nested r) ∨ (∃ w, v = .deferred w))
  ∧ (∀ v, resolveTermination (.nested (.ok v)) = resolveTermination v)
  ∧ (∀ e, resolveTermination (.nested (.error e)) = (["error: " ++ e], 137))
  ∧ (∀ v, resolveTermination (.deferred v) = resolveTermination v) := by
  refine ⟨rfl, fun i _ _ => rfl, ?_, fun v => rfl, fun e => rfl, fun v => rfl⟩
  intro v
  cases v with
  | unit => exact Or.inl rfl
  | code i => exact Or.inr (Or.inl ⟨i, rfl⟩)
  | never e => exact e.elim
  | nested r => exact Or.inr (Or.inr (Or.inl ⟨r, rfl⟩))
  | deferred w => exact Or.inr (Or.inr (Or.inr ⟨w, rfl⟩))

/-- C4 witness: `Ok(5)` resolves to exit code 5 with nothing logged
(5 is within the `i32` range). -/
theorem completion_protocol_resolution_witness :
    resolveTermination (.nested (.ok (.code 5))) = ([], 5) := by
  have h5 := completion_protocol_resolution.2.1 5 (by norm_num) (by norm_num)
  calc resolveTermination (.nested (.ok (.code 5)))
      = resolveTermination (.code 5) :=
        completion_protocol_resolution.2.2.2.1 (.code 5)
    _ = ([], 5) := h5

/-- C5: `Instance::kill` validates the numeric signal first: for every
number with no corresponding validated OS signal (0 among them) it returns
an `InvalidArgument` error with an empty action trace — the container mutex
is never locked and the sandbox is untouched — and for every valid number
it locks the container and forwards the signal with the all-processes flag
set. -/
theorem kill_validation_before_sandbox :
    ∀ (killRes : Except String Unit) (u : Nat),
      (signalTryFrom u = none →
        instanceKill killRes u =
          (.error (.invalidArgument ("invalid signal number: " ++
            toString u)), []))
    ∧ (∀ s, signalTryFrom u = some s →
        (instanceKill killRes u).2 = [.lockContainer, .sendKill s true])
    ∧ signalTryFrom 0 = none := by
  intro killRes u
  refine ⟨fun h => ?_, fun s h => ?_, by decide⟩
  · simp only [instanceKill, h]
  · cases killRes <;> simp only [instanceKill, h]

set_option maxRecDepth 10000 in
/-- C5 witness: signal 0 is rejected with `InvalidArgument` and no sandbox
action; signal 9 is forwarded as `kill(9, all-processes)`. -/
theorem kill_validation_before_sandbox_witness :
    instanceKill (.ok ()) 0 =
      (.error (.invalidArgument ("invalid signal number: " ++
        toString (0 : Nat))), [])
  ∧ (instanceKill (.ok ()) 9).2 = [.lockContainer, .sendKill 9 true] := by
  exact ⟨(kill_validation_before_sandbox (.ok ()) 0).1 (by decide),
    (kill_validation_before_sandbox (.ok ()) 9).2.1 9 (by decide)⟩

/-- C6 counterexample: a failure of the module-resolution collaborator —
here `containerd::Client::connect` returning an error — makes
`Instance::new` fail (its error propagates via `?`), contradicting the
claim that module resolution is never a hard error from `new`. -/
theorem new_connect_failure_is_hard_error :
    (instanceNew "c1" (.error "connection refused") (.ok ([], "p"))
      (fun _ => .ok ("root", "state"))).1 =
      .error (.any "connection refused") := rfl

/-- C6 (amended): a failure of the `load_modules` call degrades — a warning
is logged and `new` proceeds exactly as with an empty module set and the
default platform, succeeding when the isolated construction succeeds; but a
failure to connect to the containerd client propagates as a hard error from
`new`. -/
theorem new_load_failure_degrades :
    ∀ (id e : String)
      (z : List String × String → Except String (String × String)),
      ((instanceNew id (.ok ()) (.error e) z).1 =
        (instanceNew id (.ok ()) (.ok ([], defaultPlatform)) z).1)
    ∧ (instanceNew id (.ok ()) (.error e) z).2 ≠ []
    ∧ (∀ root state,
        (instanceNew id (.ok ()) (.error e)
          (fun _ => .ok (root, state))).1 =
          .ok ⟨id, root, state, WaitableCell.new⟩)
    ∧ (∀ e2, (instanceNew id (.error e2) (.ok ([], defaultPlatform)) z).1 =
        .error (.any e2)) := by
  intro id e z
  refine ⟨?_, ?_, fun root state => rfl, fun e2 => rfl⟩
  · rcases hz : z ([], defaultPlatform) with e3 | rs <;>
      simp [instanceNew, hz]
  · rcases hz : z ([], defaultPlatform) with e3 | rs <;>
      simp [instanceNew, hz]

/-- C10: Whenever the watcher thread completes its wait, the exit cell ends
up holding the watcher's computed record `(code, watcher timestamp)` —
never the guard's fallback record (whenever that differs) — because the
guard moved into the thread drops only after the explicit `set` has been
attempted. -/
theorem watcher_value_wins_over_fallback :
    ∀ (d : ExitRecord) (w : Except String WaitStatus) (tw : Nat)
      (c : WaitableCell ExitRecord), c.val = none →
      (watcherThread d w tw c).1.wait_timeout = some (publishCode w, tw)
    ∧ (d ≠ (publishCode w, tw) →
        (watcherThread d w tw c).1.wait_timeout ≠ some d) := by
  intro d w tw c hc
  constructor
  · simp [watcherThread, WaitableCell.set, WaitableCell.releaseGuard,
      WaitableCell.wait_timeout, hc]
  · intro hne habs
    apply hne
    have : (watcherThread d w tw c).1.wait_timeout =
        some (publishCode w, tw) := by
      simp [watcherThread, WaitableCell.set, WaitableCell.releaseGuard,
        WaitableCell.wait_timeout, hc]
    rw [this] at habs
    exact (Option.some.injEq _ _ ▸ habs).symm

/-- C10 witness: from an empty cell, a watcher observing a normal exit with
status 0 at time 5 publishes `(0, 5)`, not the fallback `(137, 0)`. -/
theorem watcher_value_wins_over_fallback_witness :
    (watcherThread (137, 0) (.ok (.exited 1 0)) 5
        WaitableCell.new).1.wait_timeout =
      some (publishCode (.ok (.exited 1 0)), 5)
  ∧ (watcherThread (137, 0) (.ok (.exited 1 0)) 5
        WaitableCell.new).1.wait_timeout ≠ some (137, 0) := by
  have h := watcher_value_wins_over_fallback (137, 0) (.ok (.exited 1 0)) 5
    WaitableCell.new rfl
  exact ⟨h.1, h.2 (by decide)⟩

lemma daemon_stem_ne_cli (s : String) :
    ("containerd-" ++ s ++ "d" : String) ≠ "containerd-shim-" ++ s ++ "-v1" := by
  intro h
  have hl := congrArg String.length h
  simp only [String.length_append] at hl
  have h1 : ("containerd-" : String).length = 11 := rfl
  have h2 : ("d" : String).length = 1 := rfl
  have h3 : ("containerd-shim-" : String).length = 16 := rfl
  have h4 : ("-v1" : String).length = 3 := rfl
  rw [h1, h2, h3, h4] at hl
  omega

lemma daemon_stem_ne_client (s : String) :
    ("containerd-" ++ s ++ "d" : String) ≠
      "containerd-shim-" ++ s ++ "d-v1" := by
  intro h
  have hl := congrArg String.length h
  simp only [String.length_append] at hl
  have h1 : ("containerd-" : String).length = 11 := rfl
  have h2 : ("d" : String).length = 1 := rfl
  have h3 : ("containerd-shim-" : String).length = 16 := rfl
  have h4 : ("d-v1" : String).length = 4 := rfl
  rw [h1, h2, h3, h4] at hl
  omega

/-- C7: With the version flag clear, role dispatch matches the invocation
identity exactly (string equality, hence case-sensitive) against the three
identities built from the lower-cased engine name: the per-instance CLI,
the manager client, and the manager daemon; any identity matching none of
the three prints a usage error naming all three expected identities and
exits with code 137. -/
theorem role_dispatch_exact_match :
    ∀ (name pkgVersion gitHash argv0 : String) (bindOk serverOk : Bool),
      (argv0 = "containerd-shim-" ++ lowerString name ++ "-v1" →
        shimMain name pkgVersion gitHash ⟨false⟩ argv0 bindOk serverOk =
          [.runCli ("io.containerd." ++ lowerString name ++ ".v1")])
    ∧ (argv0 ≠ "containerd-shim-" ++ lowerString name ++ "-v1" →
       argv0 = "containerd-shim-" ++ lowerString name ++ "d-v1" →
        shimMain name pkgVersion gitHash ⟨false⟩ argv0 bindOk serverOk =
          [.runClient ("containerd-shim-" ++ lowerString name ++ "d-v1")])
    ∧ (argv0 ≠ "containerd-shim-" ++ lowerString name ++ "-v1" →
       argv0 ≠ "containerd-shim-" ++ lowerString name ++ "d-v1" →
       argv0 = "containerd-" ++ lowerString name ++ "d" →
        (shimMain name pkgVersion gitHash ⟨false⟩ argv0
            bindOk serverOk).take 2 =
          [.logInfo "starting up!",
           .bindSocket "unix:///run/io.containerd.wasmwasi.v1/manager.sock"])
    ∧ (argv0 ≠ "containerd-shim-" ++ lowerString name ++ "-v1" →
       argv0 ≠ "containerd-shim-" ++ lowerString name ++ "d-v1" →
       argv0 ≠ "containerd-" ++ lowerString name ++ "d" →
        shimMain name pkgVersion gitHash ⟨false⟩ argv0 bindOk serverOk =
          [.errLine ("error: unrecognized binary name, expected one of " ++
            ("containerd-shim-" ++ lowerString name ++ "-v1") ++ ", " ++
            ("containerd-shim-" ++ lowerString name ++ "d-v1") ++ ", or " ++
            ("containerd-" ++ lowerString name ++ "d") ++ "."),
           .exitEv 137]) := by
  intro name pkgVersion gitHash argv0 bindOk serverOk
  refine ⟨fun h => ?_, fun hn1 h => ?_, fun hn1 hn2 h => ?_,
    fun hn1 hn2 hn3 => ?_⟩
  · subst h; simp [shimMain]
  · subst h; simp [shimMain, hn1]
  · subst h
    cases bindOk <;> cases serverOk <;> simp [shimMain, hn1, hn2]
  · simp [shimMain, hn1, hn2, hn3]

/-- C7 witness: for engine name `Spin`, the CLI identity
`containerd-shim-spin-v1` selects the per-instance CLI role, and the
unmatched identity `totally-unknown` prints the usage error naming the
three expected identities and exits 137. -/
theorem role_dispatch_exact_match_witness :
    shimMain "Spin" "1.0" "abc" ⟨false⟩ "containerd-shim-spin-v1" true true =
      [.runCli "io.containerd.spin.v1"]
  ∧ shimMain "Spin" "1.0" "abc" ⟨false⟩ "totally-unknown" true true =
      [.errLine ("error: unrecognized binary name, expected one of " ++
        "containerd-shim-spin-v1, containerd-shim-spind-v1, or " ++
        "containerd-spind."),
       .exitEv 137] := by
  have h1 := (role_dispatch_exact_match "Spin" "1.0" "abc"
    "containerd-shim-spin-v1" true true).1 (by decide)
  have h2 := (role_dispatch_exact_match "Spin" "1.0" "abc"
    "totally-unknown" true true).2.2.2 (by decide) (by decide) (by decide)
  exact ⟨h1.trans (by decide), h2.trans (by decide)⟩

/-- C8 counterexample: for engine name `Spin` the manager daemon binds the
literal socket path `unix:///run/io.containerd.wasmwasi.v1/manager.sock`,
which does not mention the engine name at all (the name `spin` is not a
substring of it), so the bound path is not derived from the engine's
name. -/
theorem daemon_socket_not_derived_from_name :
    shimMain "Spin" "1.0" "abc" ⟨false⟩ "containerd-spind" true true =
      [.logInfo "starting up!",
       .bindSocket "unix:///run/io.containerd.wasmwasi.v1/manager.sock",
       .serverStart, .logInfo "server started!", .blockForever]
  ∧ hasSubstr "spin".toList
      "unix:///run/io.containerd.wasmwasi.v1/manager.sock".toList = false := by
  exact ⟨by decide, by decide⟩

/-- C8 (amended): in the manager-daemon role the control socket bound is
the fixed, non-configurable literal path
`unix:///run/io.containerd.wasmwasi.v1/manager.sock` — the same for every
engine name, not derived from it — and a binding failure aborts the process
with the diagnostic `failed to bind to socket`. -/
theorem daemon_socket_fixed_and_bind_fatal :
    ∀ (name pkgVersion gitHash : String) (serverOk : Bool),
      (shimMain name pkgVersion gitHash ⟨false⟩
          ("containerd-" ++ lowerString name ++ "d") false serverOk =
        [.logInfo "starting up!",
         .bindSocket "unix:///run/io.containerd.wasmwasi.v1/manager.sock",
         .panicEv "failed to bind to socket"])
    ∧ (∀ bindOk, (shimMain name pkgVersion gitHash ⟨false⟩
          ("containerd-" ++ lowerString name ++ "d") bindOk serverOk).take 2 =
        [.logInfo "starting up!",
         .bindSocket "unix:///run/io.containerd.wasmwasi.v1/manager.sock"]) := by
  intro name pkgVersion gitHash serverOk
  have hn1 := daemon_stem_ne_cli (lowerString name)
  have hn2 := daemon_stem_ne_client (lowerString name)
  constructor
  · simp [shimMain, hn1, hn2]
  · intro bindOk
    cases bindOk <;> cases serverOk <;> simp [shimMain, hn1, hn2]

/-- C9 counterexample: for the engine declared as `Wasmtime` (whose
lower-cased identifier, used in the three program identities, is
`wasmtime`), the version output's second line is `  Runtime: Wasmtime`,
not `  Runtime: wasmtime`, so the output is not the four lines built from
the lower-cased `<name>`. -/
theorem version_runtime_line_not_lowercased :
    shimMain "Wasmtime" "1.0" "abc" ⟨true⟩ "x" true true ≠
      [.outLine ("x" ++ ":"),
       .outLine ("  Runtime: " ++ lowerString "Wasmtime"),
       .outLine ("  Version: " ++ "1.0"),
       .outLine ("  Revision: " ++ "abc"),
       .outLine "",
       .exitEv 0] := by decide

/-- C9 (amended): every invocation carrying the version flag
short-circuits before role resolution (for every invocation identity, even
an unrecognized one) and prints four lines — the program identity followed
by a colon, `Runtime: <declared engine name, original case>`,
`Version: <pkg-version>`, `Revision: <build-revision>` — then a blank
line, and exits with code 0. -/
theorem version_flag_short_circuits :
    ∀ (name pkgVersion gitHash argv0 : String) (bindOk serverOk : Bool),
      shimMain name pkgVersion gitHash ⟨true⟩ argv0 bindOk serverOk =
        [.outLine (argv0 ++ ":"),
         .outLine ("  Runtime: " ++ name),
         .outLine ("  Version: " ++ pkgVersion),
         .outLine ("  Revision: " ++ gitHash),
         .outLine "",
         .exitEv 0] := by
  intro name pkgVersion gitHash argv0 bindOk serverOk
  rfl

end ContainerdWasm
